import Mathlib

/-!
Verification of the ROVIO health monitor (`include/rovio/HealthMonitor.hpp`).

Shallow embedding conventions:
* C++ `float`/`double` scalars are modelled as exact rationals (`ℚ`);
  all decisions in the source are order comparisons, which are preserved.
* `Eigen::Vector3d` positions are triples of rationals; the
  `kindr::RotationQuaternionPD` orientation is a quadruple of rationals
  with identity `(1, 0, 0, 0)`.
* `imu_output.BvB().norm()` enters the decision logic only as a scalar;
  the snapshot therefore carries this Euclidean norm as the field
  `BvB_norm`, together with the position `WrWB` and orientation `qBW`
  consumed by the failsafe-pose update.
* `std::nth_element` at `middle_index` followed by reading that index is
  modelled as reading index `middle_index` of a fully sorted copy, which
  is exactly the value `nth_element` guarantees at that position.
* The C++ `int` counter and threshold are modelled as `ℤ`.
-/

namespace Rovio

/-- Retained failsafe pose: position, orientation quaternion, and the
feature-pixel-covariance-area median stored when it was captured
(`struct RovioFailsafePose`). -/
structure RovioFailsafePose where
  failsafe_WrWB : ℚ × ℚ × ℚ
  failsafe_qBW : ℚ × ℚ × ℚ × ℚ
  feature_pixel_cov_area_median : ℚ
  deriving DecidableEq

/-- Default-constructed failsafe pose: zero position, identity
orientation, zero median (`RovioFailsafePose::RovioFailsafePose`). -/
def RovioFailsafePose.init : RovioFailsafePose where
  failsafe_WrWB := (0, 0, 0)
  failsafe_qBW := (1, 0, 0, 0)
  feature_pixel_cov_area_median := 0

/-- Estimator output snapshot (`StandardOutput`): the monitor consumes the
Euclidean norm of the body-frame velocity `BvB`, the world-frame position
`WrWB` and the orientation `qBW`. -/
structure StandardOutput where
  BvB_norm : ℚ
  WrWB : ℚ × ℚ × ℚ
  qBW : ℚ × ℚ × ℚ × ℚ
  deriving DecidableEq

/-- State of a `RovioHealthMonitor`: the configuration parameters fixed at
construction and the two mutable fields (retained failsafe pose and the
subsequent-unhealthy-updates counter). -/
structure RovioHealthMonitor where
  enabled_ : Bool
  velocity_to_consider_static_ : ℚ
  max_subsequent_unhealthy_updates_ : ℤ
  healthy_feature_pixel_cov_area_ : ℚ
  healthy_feature_pixel_cov_area_increment_ : ℚ
  unhealthy_feature_pixel_cov_area_ : ℚ
  unhealthy_velocity_ : ℚ
  last_safe_pose_ : RovioFailsafePose
  num_subsequent_unhealthy_updates_ : ℤ
  deriving DecidableEq

/-- Constructor model: parameters as resolved after the ROS parameter
lookups; the counter starts at `0` and the failsafe pose at its default. -/
def RovioHealthMonitor.construct (enabled : Bool)
    (velocity_to_consider_static : ℚ) (max_subsequent_unhealthy_updates : ℤ)
    (healthy_feature_pixel_cov_area : ℚ)
    (healthy_feature_pixel_cov_area_increment : ℚ)
    (unhealthy_feature_pixel_cov_area : ℚ) (unhealthy_velocity : ℚ) :
    RovioHealthMonitor where
  enabled_ := enabled
  velocity_to_consider_static_ := velocity_to_consider_static
  max_subsequent_unhealthy_updates_ := max_subsequent_unhealthy_updates
  healthy_feature_pixel_cov_area_ := healthy_feature_pixel_cov_area
  healthy_feature_pixel_cov_area_increment_ :=
    healthy_feature_pixel_cov_area_increment
  unhealthy_feature_pixel_cov_area_ := unhealthy_feature_pixel_cov_area
  unhealthy_velocity_ := unhealthy_velocity
  last_safe_pose_ := RovioFailsafePose.init
  num_subsequent_unhealthy_updates_ := 0

/-- Monitor built with the default parameter values of the C++
constructor (no ROS parameter overrides). -/
def defaultMonitor : RovioHealthMonitor :=
  RovioHealthMonitor.construct false (1/10) 2 1 (3/10) 5 6

/-- Accessor `enabled()`. -/
def RovioHealthMonitor.enabled (m : RovioHealthMonitor) : Bool := m.enabled_

/-- Accessor `failsafe_WrWB()`. -/
def RovioHealthMonitor.failsafe_WrWB (m : RovioHealthMonitor) : ℚ × ℚ × ℚ :=
  m.last_safe_pose_.failsafe_WrWB

/-- Accessor `failsafe_qBW()`. -/
def RovioHealthMonitor.failsafe_qBW (m : RovioHealthMonitor) :
    ℚ × ℚ × ℚ × ℚ :=
  m.last_safe_pose_.failsafe_qBW

/-- Median as computed by `shouldResetEstimator` lines 84-92: `0` for an
empty input, otherwise the element that `std::nth_element` places at
`middle_index = size / 2`, i.e. the element of the sorted copy at that
index. -/
def medianOf (xs : List ℚ) : ℚ :=
  if xs.isEmpty then 0
  else (List.insertionSort (· ≤ ·) xs).getD (xs.length / 2) 0

/-- Unhealthy classification of lines 96-98: moving faster than the
static threshold, and either faster than the unhealthy velocity or with a
feature-uncertainty median above the unhealthy area bound. -/
abbrev unhealthyCond (m : RovioHealthMonitor) (median BvB_norm : ℚ) : Prop :=
  BvB_norm > m.velocity_to_consider_static_ ∧
    (BvB_norm > m.unhealthy_velocity_ ∨
      median > m.unhealthy_feature_pixel_cov_area_)

/-- Failsafe-retention gate of lines 114-117: the median is below the
healthy area bound and within the allowed increment of the currently
retained median. -/
abbrev retainCond (m : RovioHealthMonitor) (median : ℚ) : Prop :=
  median < m.healthy_feature_pixel_cov_area_ ∧
    |median - m.last_safe_pose_.feature_pixel_cov_area_median| <
      m.healthy_feature_pixel_cov_area_increment_

/-- One call to `RovioHealthMonitor::shouldResetEstimator`, returning the
boolean result together with the updated monitor state. -/
def shouldResetEstimator (m : RovioHealthMonitor)
    (feature_pixel_cov_area_in : List ℚ) (imu_output : StandardOutput) :
    Bool × RovioHealthMonitor :=
  let feature_pixel_cov_area_median := medianOf feature_pixel_cov_area_in
  let BvB_norm := imu_output.BvB_norm
  if unhealthyCond m feature_pixel_cov_area_median BvB_norm then
    let m1 := { m with
      num_subsequent_unhealthy_updates_ :=
        m.num_subsequent_unhealthy_updates_ + 1 }
    if m1.num_subsequent_unhealthy_updates_ >
        m.max_subsequent_unhealthy_updates_ then
      (true, m1)
    else
      (false, m1)
  else
    let pose :=
      if retainCond m feature_pixel_cov_area_median then
        { failsafe_WrWB := imu_output.WrWB
          failsafe_qBW := imu_output.qBW
          feature_pixel_cov_area_median := feature_pixel_cov_area_median }
      else m.last_safe_pose_
    (false, { m with last_safe_pose_ := pose
                     num_subsequent_unhealthy_updates_ := 0 })

/-- One per-estimator-cycle input: the feature pixel covariance area
collection and the IMU output snapshot. -/
abbrev Cycle : Type := List ℚ × StandardOutput

/-- Unhealthy classification of a cycle with respect to the (immutable)
thresholds of a monitor state. -/
abbrev cycleUnhealthy (m : RovioHealthMonitor) (c : Cycle) : Prop :=
  unhealthyCond m (medianOf c.1) c.2.BvB_norm

/-- Sequence of calls to `shouldResetEstimator`: returns the list of
boolean results and the final monitor state. -/
def runCycles : RovioHealthMonitor → List Cycle →
    List Bool × RovioHealthMonitor
  | m, [] => ([], m)
  | m, c :: rest =>
    let r := shouldResetEstimator m c.1 c.2
    let rr := runCycles r.2 rest
    (r.1 :: rr.1, rr.2)

/-- Statistical median following the spec glossary with the lower-middle
convention for even sizes: the sorted element at index `(n - 1) / 2`. -/
def statisticalMedianLower (xs : List ℚ) : ℚ :=
  if xs.isEmpty then 0
  else (Multiset.sort (· ≤ ·) (↑xs : Multiset ℚ)).getD ((xs.length - 1) / 2) 0

/-- Statistical median with the upper-middle convention for even sizes:
the sorted element at index `n / 2`. -/
def statisticalMedianUpper (xs : List ℚ) : ℚ :=
  if xs.isEmpty then 0
  else (Multiset.sort (· ≤ ·) (↑xs : Multiset ℚ)).getD (xs.length / 2) 0

/-- Concrete cycle used in witnesses: empty feature collection and
velocity norm 7. -/
def fastCycle : Cycle :=
  ([], { BvB_norm := 7, WrWB := (0, 0, 0), qBW := (1, 0, 0, 0) })

/-- Concrete cycle used in witnesses: a single feature sample with the
given covariance area, zero velocity, position `(1, 1, 1)` and identity
orientation. -/
def calmCycle (med : ℚ) : Cycle :=
  ([med], { BvB_norm := 0, WrWB := (1, 1, 1), qBW := (1, 0, 0, 0) })

/-! ### Helper lemmas about a single call -/

/-- On an unhealthy cycle the call increments the counter, reports whether
the incremented counter exceeds the configured maximum, and changes
nothing else. -/
theorem shouldResetEstimator_of_unhealthy (m : RovioHealthMonitor)
    (xs : List ℚ) (out : StandardOutput)
    (h : unhealthyCond m (medianOf xs) out.BvB_norm) :
    shouldResetEstimator m xs out =
      (decide (m.num_subsequent_unhealthy_updates_ + 1 >
          m.max_subsequent_unhealthy_updates_),
       { m with num_subsequent_unhealthy_updates_ :=
          m.num_subsequent_unhealthy_updates_ + 1 }) := by
  by_cases h2 : m.num_subsequent_unhealthy_updates_ + 1 >
      m.max_subsequent_unhealthy_updates_ <;>
    simp [shouldResetEstimator, h, h2]

/-- On a healthy cycle the call returns `false`, zeroes the counter, and
overwrites the failsafe pose exactly when the retention gate passes. -/
theorem shouldResetEstimator_of_healthy (m : RovioHealthMonitor)
    (xs : List ℚ) (out : StandardOutput)
    (h : ¬ unhealthyCond m (medianOf xs) out.BvB_norm) :
    shouldResetEstimator m xs out =
      (false,
       { m with
          last_safe_pose_ :=
            if retainCond m (medianOf xs) then
              { failsafe_WrWB := out.WrWB
                failsafe_qBW := out.qBW
                feature_pixel_cov_area_median := medianOf xs }
            else m.last_safe_pose_
          num_subsequent_unhealthy_updates_ := 0 }) := by
  simp [shouldResetEstimator, h]

/-! ### Helper lemmas about call sequences -/

/-- Running a concatenation of cycle lists runs the two parts in order. -/
theorem runCycles_append (a b : List Cycle) :
    ∀ m : RovioHealthMonitor,
      runCycles m (a ++ b) =
        ((runCycles m a).1 ++ (runCycles (runCycles m a).2 b).1,
         (runCycles (runCycles m a).2 b).2) := by
  induction a with
  | nil => intro m; simp [runCycles]
  | cons c rest ih => intro m; simp [runCycles, ih]

/-- Running a list of cycles that are all unhealthy for the monitor's
thresholds: the i-th call reports whether the counter, advanced past i
increments, exceeds the maximum, and the final state is the start state
with the counter advanced by the number of cycles. -/
theorem runCycles_of_unhealthy (cs : List Cycle) :
    ∀ m : RovioHealthMonitor, (∀ c ∈ cs, cycleUnhealthy m c) →
      (runCycles m cs).1 =
        (List.range cs.length).map
          (fun i : ℕ => decide (m.num_subsequent_unhealthy_updates_ +
            (i : ℤ) + 1 > m.max_subsequent_unhealthy_updates_)) ∧
      (runCycles m cs).2 =
        { m with num_subsequent_unhealthy_updates_ :=
            m.num_subsequent_unhealthy_updates_ + cs.length } := by
  induction cs with
  | nil => intro m _; simp [runCycles]
  | cons c rest ih =>
    intro m hall
    have hc : cycleUnhealthy m c := hall c (List.mem_cons_self c rest)
    have hrest : ∀ d ∈ rest,
        cycleUnhealthy
          { m with num_subsequent_unhealthy_updates_ :=
              m.num_subsequent_unhealthy_updates_ + 1 } d :=
      fun d hd => hall d (List.mem_cons_of_mem c hd)
    obtain ⟨ih1, ih2⟩ := ih _ hrest
    constructor
    · simp only [runCycles, shouldResetEstimator_of_unhealthy m c.1 c.2 hc,
        ih1, List.length_cons, List.range_succ_eq_map, List.map_cons,
        List.map_map]
      congr 1
      · rw [decide_eq_decide]
        push_cast
        omega
      · apply List.map_congr_left
        intro i _
        simp only [Function.comp]
        rw [decide_eq_decide]
        push_cast
        omega
    · simp only [runCycles, shouldResetEstimator_of_unhealthy m c.1 c.2 hc,
        ih2]
      simp only [List.length_cons]
      simp only [RovioHealthMonitor.mk.injEq, true_and, and_true, eq_self_iff_true]
      push_cast
      omega

/-- Insertion sort of a list agrees with the canonical sorted list of its
multiset of elements. -/
theorem insertionSort_eq_multisetSort (xs : List ℚ) :
    List.insertionSort (· ≤ ·) xs =
      Multiset.sort (· ≤ ·) (↑xs : Multiset ℚ) := by
  exact List.eq_of_perm_of_sorted
    ((List.perm_insertionSort _ xs).trans
      (Multiset.coe_eq_coe.mp (Multiset.sort_eq (· ≤ ·) (↑xs : Multiset ℚ))).symm)
    (List.sorted_insertionSort _ xs)
    (Multiset.sort_sorted _ _)

/-- Reading position `i < n` of `(List.range n).map f` yields `f i`. -/
theorem getD_map_range (f : ℕ → Bool) (n i : ℕ) (h : i < n) (d : Bool) :
    ((List.range n).map f).getD i d = f i := by
  rw [List.getD_eq_getElem?_getD, List.getElem?_map, List.getElem?_range h]
  rfl

/-- The call result and the state update are independent of the enabled
flag: flipping `enabled_` commutes with `shouldResetEstimator`. -/
theorem shouldResetEstimator_enabled (m : RovioHealthMonitor) (b : Bool)
    (xs : List ℚ) (out : StandardOutput) :
    shouldResetEstimator { m with enabled_ := b } xs out =
      ((shouldResetEstimator m xs out).1,
       { (shouldResetEstimator m xs out).2 with enabled_ := b }) := by
  by_cases h : unhealthyCond m (medianOf xs) out.BvB_norm
  · have h2 : unhealthyCond { m with enabled_ := b } (medianOf xs)
        out.BvB_norm := h
    by_cases h3 : m.num_subsequent_unhealthy_updates_ + 1 >
        m.max_subsequent_unhealthy_updates_ <;>
      simp [shouldResetEstimator_of_unhealthy _ _ _ h,
        shouldResetEstimator_of_unhealthy _ _ _ h2, h3]
  · have h2 : ¬ unhealthyCond { m with enabled_ := b } (medianOf xs)
        out.BvB_norm := h
    by_cases h3 : retainCond m (medianOf xs) <;>
      have h4 := h3 <;>
      simp [shouldResetEstimator_of_healthy _ _ _ h,
        shouldResetEstimator_of_healthy _ _ _ h2, h3]

/-- All calls of an unhealthy run return `false` when the counter cannot
reach past the maximum within the run. -/
theorem runCycles_all_false (cs : List Cycle) (m : RovioHealthMonitor)
    (hall : ∀ c ∈ cs, cycleUnhealthy m c)
    (hle : m.num_subsequent_unhealthy_updates_ + cs.length ≤
      m.max_subsequent_unhealthy_updates_) :
    ∀ r ∈ (runCycles m cs).1, r = false := by
  obtain ⟨t, -⟩ := runCycles_of_unhealthy cs m hall
  rw [t]
  intro r hr
  obtain ⟨i, hi, rfl⟩ := List.mem_map.mp hr
  rw [List.mem_range] at hi
  simp only [decide_eq_false_iff_not]
  omega

/-- All calls of an unhealthy run return `true` when the counter is
already past the maximum. -/
theorem runCycles_all_true (cs : List Cycle) (m : RovioHealthMonitor)
    (hall : ∀ c ∈ cs, cycleUnhealthy m c)
    (hgt : m.max_subsequent_unhealthy_updates_ <
      m.num_subsequent_unhealthy_updates_) :
    ∀ r ∈ (runCycles m cs).1, r = true := by
  obtain ⟨t, -⟩ := runCycles_of_unhealthy cs m hall
  rw [t]
  intro r hr
  obtain ⟨i, hi, rfl⟩ := List.mem_map.mp hr
  simp only [decide_eq_true_eq]
  omega

/-- A run produces one boolean result per cycle. -/
theorem runCycles_length (cs : List Cycle) :
    ∀ m : RovioHealthMonitor, (runCycles m cs).1.length = cs.length := by
  induction cs with
  | nil => intro m; rfl
  | cons c rest ih => intro m; simp [runCycles, ih]

/-- Flipping the enabled flag commutes with running any cycle sequence. -/
theorem runCycles_enabled (cs : List Cycle) :
    ∀ (m : RovioHealthMonitor) (b : Bool),
      runCycles { m with enabled_ := b } cs =
        ((runCycles m cs).1, { (runCycles m cs).2 with enabled_ := b }) := by
  induction cs with
  | nil => intro m b; simp [runCycles]
  | cons c rest ih =>
    intro m b
    simp only [runCycles, shouldResetEstimator_enabled]
    rw [ih]

/-- A run of healthy cycles whose medians all stay below the healthy area
bound, whose first median is within the increment of the retained median,
and whose consecutive medians decrease by less than the increment, ends
with the failsafe pose equal to the snapshot of the last cycle. -/
theorem runCycles_retention (cs : List Cycle) :
    ∀ (m : RovioHealthMonitor) (hne : cs ≠ []),
      (∀ c ∈ cs, ¬ cycleUnhealthy m c) →
      (∀ c ∈ cs, medianOf c.1 < m.healthy_feature_pixel_cov_area_) →
      ((cs.map fun c => medianOf c.1).Chain'
        (fun x y => y < x ∧
          x - y < m.healthy_feature_pixel_cov_area_increment_)) →
      |medianOf (cs.head hne).1 -
          m.last_safe_pose_.feature_pixel_cov_area_median| <
        m.healthy_feature_pixel_cov_area_increment_ →
      (runCycles m cs).2.last_safe_pose_ =
        { failsafe_WrWB := (cs.getLast hne).2.WrWB
          failsafe_qBW := (cs.getLast hne).2.qBW
          feature_pixel_cov_area_median := medianOf (cs.getLast hne).1 } := by
  induction cs with
  | nil => intro m hne; exact absurd rfl hne
  | cons c rest ih =>
    intro m hne hh hlt hchain hfirst
    have hhc : ¬ unhealthyCond m (medianOf c.1) c.2.BvB_norm :=
      hh c (List.mem_cons_self c rest)
    have hret : retainCond m (medianOf c.1) :=
      ⟨hlt c (List.mem_cons_self c rest), hfirst⟩
    cases rest with
    | nil =>
      simp only [runCycles, shouldResetEstimator_of_healthy _ _ _ hhc,
        if_pos hret]
      rfl
    | cons d rest2 =>
      rw [List.map_cons, List.map_cons, List.chain'_cons] at hchain
      obtain ⟨⟨hdc, hdiff⟩, hchain2⟩ := hchain
      simp only [runCycles, shouldResetEstimator_of_healthy _ _ _ hhc,
        if_pos hret]
      have hlast : (c :: d :: rest2).getLast hne =
          (d :: rest2).getLast (List.cons_ne_nil d rest2) :=
        List.getLast_cons (List.cons_ne_nil d rest2)
      rw [hlast]
      refine ih _ (List.cons_ne_nil d rest2)
        (fun e he => hh e (List.mem_cons_of_mem c he))
        (fun e he => hlt e (List.mem_cons_of_mem c he))
        (by rw [List.map_cons]; exact hchain2) ?_
      show |medianOf d.1 - medianOf c.1| <
        m.healthy_feature_pixel_cov_area_increment_
      rw [abs_sub_comm, abs_of_pos (sub_pos.mpr hdc)]
      exact hdiff

/-! ### Claim theorems -/

/-- C1: a call to `shouldResetEstimator` classifies the cycle unhealthy
(increments the streak counter rather than zeroing it) if and only if the
velocity norm strictly exceeds `velocity_to_consider_static_` and either
the norm strictly exceeds `unhealthy_velocity_` or the median strictly
exceeds `unhealthy_feature_pixel_cov_area_`; and whenever the norm is at
most `velocity_to_consider_static_`, the cycle is healthy (counter zeroed)
regardless of the median. -/
theorem unhealthy_classification_iff (m : RovioHealthMonitor)
    (xs : List ℚ) (out : StandardOutput)
    (h0 : 0 ≤ m.num_subsequent_unhealthy_updates_) :
    ((shouldResetEstimator m xs out).2.num_subsequent_unhealthy_updates_ =
        m.num_subsequent_unhealthy_updates_ + 1 ↔
      (out.BvB_norm > m.velocity_to_consider_static_ ∧
        (out.BvB_norm > m.unhealthy_velocity_ ∨
          medianOf xs > m.unhealthy_feature_pixel_cov_area_))) ∧
    (out.BvB_norm ≤ m.velocity_to_consider_static_ →
      (shouldResetEstimator m xs out).2.num_subsequent_unhealthy_updates_
        = 0) := by
  by_cases h : unhealthyCond m (medianOf xs) out.BvB_norm
  · rw [shouldResetEstimator_of_unhealthy m xs out h]
    exact ⟨⟨fun _ => h, fun _ => rfl⟩,
      fun hle => absurd h.1 (not_lt.mpr hle)⟩
  · rw [shouldResetEstimator_of_healthy m xs out h]
    refine ⟨⟨fun heq => ?_, fun hcond => absurd hcond h⟩, fun _ => rfl⟩
    have h1 : (0 : ℤ) = m.num_subsequent_unhealthy_updates_ + 1 := heq
    exact absurd h1 (by omega)

/-- C1 witness: with the default configuration, zero counter, an empty
sample list and velocity norm 7, the classification condition holds and the
no-median part is vacuous. -/
theorem unhealthy_classification_iff_witness :
    ((shouldResetEstimator defaultMonitor []
        ⟨7, (0, 0, 0), (1, 0, 0, 0)⟩).2.num_subsequent_unhealthy_updates_ =
      defaultMonitor.num_subsequent_unhealthy_updates_ + 1 ↔
      ((7 : ℚ) > defaultMonitor.velocity_to_consider_static_ ∧
        ((7 : ℚ) > defaultMonitor.unhealthy_velocity_ ∨
          medianOf [] > defaultMonitor.unhealthy_feature_pixel_cov_area_))) ∧
    ((7 : ℚ) ≤ defaultMonitor.velocity_to_consider_static_ →
      (shouldResetEstimator defaultMonitor []
        ⟨7, (0, 0, 0), (1, 0, 0, 0)⟩).2.num_subsequent_unhealthy_updates_
        = 0) :=
  unhealthy_classification_iff defaultMonitor [] ⟨7, (0, 0, 0), (1, 0, 0, 0)⟩
    (by norm_num [defaultMonitor, RovioHealthMonitor.construct])

/-- C4 counterexample: on the two-element input `[1, 2]` the code reads the
sorted element at index `2 / 2 = 1`, the upper-middle element `2`, while
the lower-median convention demanded by the claim names `1`. -/
theorem median_lower_convention_counterexample :
    medianOf [1, 2] = 2 ∧ statisticalMedianLower [1, 2] = 1 ∧
    medianOf [1, 2] ≠ statisticalMedianLower [1, 2] := by
  have h : Multiset.sort (· ≤ ·) (↑([1, 2] : List ℚ) : Multiset ℚ)
      = [1, 2] := by
    rw [← insertionSort_eq_multisetSort]
    decide
  have h2 : statisticalMedianLower [1, 2] = 1 := by
    simp [statisticalMedianLower, h]
  refine ⟨by decide, h2, ?_⟩
  rw [h2]
  decide

/-- C4 (amended): the median computed by `shouldResetEstimator` equals `0`
on an empty collection and otherwise equals the statistical median of the
collection, where for even-sized collections the upper-middle element of
the sorted order is used. -/
theorem median_eq_statistical_upper :
    medianOf [] = 0 ∧
    ∀ xs : List ℚ, medianOf xs = statisticalMedianUpper xs := by
  refine ⟨rfl, fun xs => ?_⟩
  unfold medianOf statisticalMedianUpper
  rw [insertionSort_eq_multisetSort]

/-- C9: an unhealthy cycle leaves the retained failsafe pose (position,
orientation and stored median) unchanged; only the healthy branch writes
it. -/
theorem unhealthy_preserves_failsafe (m : RovioHealthMonitor)
    (xs : List ℚ) (out : StandardOutput)
    (h : unhealthyCond m (medianOf xs) out.BvB_norm) :
    (shouldResetEstimator m xs out).2.last_safe_pose_ =
      m.last_safe_pose_ := by
  rw [shouldResetEstimator_of_unhealthy m xs out h]

/-- C9 witness: an unhealthy call that returns `true` (counter already past
the maximum) leaves the failsafe pose unchanged. -/
theorem unhealthy_preserves_failsafe_witness :
    (shouldResetEstimator
        { defaultMonitor with num_subsequent_unhealthy_updates_ := 5 } []
        ⟨7, (0, 0, 0), (1, 0, 0, 0)⟩).2.last_safe_pose_ =
      ({ defaultMonitor with
          num_subsequent_unhealthy_updates_ := 5 }).last_safe_pose_ :=
  unhealthy_preserves_failsafe _ _ _
    (by norm_num [unhealthyCond, medianOf, defaultMonitor,
      RovioHealthMonitor.construct])

/-- C10: the enabled flag does not influence `shouldResetEstimator`: two
monitor states differing only in `enabled_` produce the same results and
the same final state (up to that flag) on every call sequence, and the
`enabled` accessor reports the flag. -/
theorem enabled_noninterference (m : RovioHealthMonitor) (b : Bool)
    (cs : List Cycle) :
    (runCycles { m with enabled_ := b } cs).1 = (runCycles m cs).1 ∧
    (runCycles { m with enabled_ := b } cs).2 =
      { (runCycles m cs).2 with enabled_ := b } ∧
    RovioHealthMonitor.enabled { m with enabled_ := b } = b := by
  rw [runCycles_enabled cs m b]
  exact ⟨rfl, rfl, rfl⟩

/-- C2: with `max_subsequent_unhealthy_updates_ = k`, a zero streak
counter (as at construction or after any healthy cycle) and a sequence of
`k + 1` unhealthy cycles, each of the first `k` calls returns `false` and
the `(k + 1)`-th returns `true`. -/
theorem streak_threshold_first_true (m : RovioHealthMonitor) (k : ℕ)
    (cs : List Cycle)
    (h0 : m.num_subsequent_unhealthy_updates_ = 0)
    (hmax : m.max_subsequent_unhealthy_updates_ = (k : ℤ))
    (hlen : cs.length = k + 1)
    (hall : ∀ c ∈ cs, cycleUnhealthy m c) :
    (∀ i : ℕ, i < k → (runCycles m cs).1.getD i true = false) ∧
    (runCycles m cs).1.getD k false = true := by
  obtain ⟨h1, -⟩ := runCycles_of_unhealthy cs m hall
  rw [h1, hlen, h0, hmax]
  constructor
  · intro i hi
    rw [getD_map_range _ _ _ (by omega)]
    simp only [decide_eq_false_iff_not]
    omega
  · rw [getD_map_range _ _ _ (by omega)]
    simp only [decide_eq_true_eq]
    omega

/-- C2 witness: the claim's instance; defaults give `k = 2`,
`unhealthy_velocity_ = 6`, `velocity_to_consider_static_ = 1/10`, and
three cycles of speed 7 with median 0 return false, false, true. -/
theorem streak_threshold_first_true_witness :
    (∀ i : ℕ, i < 2 →
      (runCycles defaultMonitor
        [fastCycle, fastCycle, fastCycle]).1.getD i true = false) ∧
    (runCycles defaultMonitor
      [fastCycle, fastCycle, fastCycle]).1.getD 2 false = true :=
  streak_threshold_first_true defaultMonitor 2
    [fastCycle, fastCycle, fastCycle] rfl rfl rfl
    (by
      intro c hcm
      fin_cases hcm <;>
        norm_num [cycleUnhealthy, unhealthyCond, medianOf, fastCycle,
          defaultMonitor, RovioHealthMonitor.construct])

/-- C3: on a healthy cycle the retained failsafe pose is overwritten with
the snapshot's position, orientation and the computed median exactly when
the median is strictly below `healthy_feature_pixel_cov_area_` and differs
from the retained median by strictly less than
`healthy_feature_pixel_cov_area_increment_`; otherwise it is left
unchanged; and at construction the retained pose is identity orientation,
zero position, zero median. -/
theorem failsafe_update_iff (m : RovioHealthMonitor) (xs : List ℚ)
    (out : StandardOutput)
    (hh : ¬ unhealthyCond m (medianOf xs) out.BvB_norm) :
    ((medianOf xs < m.healthy_feature_pixel_cov_area_ ∧
        |medianOf xs - m.last_safe_pose_.feature_pixel_cov_area_median| <
          m.healthy_feature_pixel_cov_area_increment_) →
      (shouldResetEstimator m xs out).2.last_safe_pose_ =
        { failsafe_WrWB := out.WrWB, failsafe_qBW := out.qBW,
          feature_pixel_cov_area_median := medianOf xs }) ∧
    (¬ (medianOf xs < m.healthy_feature_pixel_cov_area_ ∧
        |medianOf xs - m.last_safe_pose_.feature_pixel_cov_area_median| <
          m.healthy_feature_pixel_cov_area_increment_) →
      (shouldResetEstimator m xs out).2.last_safe_pose_ =
        m.last_safe_pose_) ∧
    (∀ (e : Bool) (v : ℚ) (mx : ℤ) (ha hi ua uv : ℚ),
      (RovioHealthMonitor.construct e v mx ha hi ua uv).last_safe_pose_ =
        { failsafe_WrWB := (0, 0, 0), failsafe_qBW := (1, 0, 0, 0),
          feature_pixel_cov_area_median := 0 }) := by
  rw [shouldResetEstimator_of_healthy m xs out hh]
  refine ⟨fun hc => ?_, fun hc => ?_, fun _ _ _ _ _ _ _ => rfl⟩
  · simp only [if_pos hc]
  · simp only [if_neg hc]

/-- C3 witness: on the default configuration a healthy cycle with median
`1/5` qualifies for retention and overwrites the failsafe pose; the
construction part is instantiated at the default parameters. -/
theorem failsafe_update_iff_witness :
    (((medianOf [1/5] < defaultMonitor.healthy_feature_pixel_cov_area_ ∧
        |medianOf [1/5] -
            defaultMonitor.last_safe_pose_.feature_pixel_cov_area_median| <
          defaultMonitor.healthy_feature_pixel_cov_area_increment_) →
      (shouldResetEstimator defaultMonitor [1/5]
          (calmCycle (1/5)).2).2.last_safe_pose_ =
        { failsafe_WrWB := (calmCycle (1/5)).2.WrWB
          failsafe_qBW := (calmCycle (1/5)).2.qBW
          feature_pixel_cov_area_median := medianOf [1/5] }) ∧
    (¬ (medianOf [1/5] < defaultMonitor.healthy_feature_pixel_cov_area_ ∧
        |medianOf [1/5] -
            defaultMonitor.last_safe_pose_.feature_pixel_cov_area_median| <
          defaultMonitor.healthy_feature_pixel_cov_area_increment_) →
      (shouldResetEstimator defaultMonitor [1/5]
          (calmCycle (1/5)).2).2.last_safe_pose_ =
        defaultMonitor.last_safe_pose_) ∧
    (∀ (e : Bool) (v : ℚ) (mx : ℤ) (ha hi ua uv : ℚ),
      (RovioHealthMonitor.construct e v mx ha hi ua uv).last_safe_pose_ =
        { failsafe_WrWB := (0, 0, 0), failsafe_qBW := (1, 0, 0, 0),
          feature_pixel_cov_area_median := 0 })) :=
  failsafe_update_iff defaultMonitor [1/5] (calmCycle (1/5)).2
    (by norm_num [unhealthyCond, medianOf, calmCycle, defaultMonitor,
      RovioHealthMonitor.construct, List.insertionSort, List.orderedInsert])

/-- C8: with positive thresholds, an empty feature collection yields
median `0`, which can never exceed `unhealthy_feature_pixel_cov_area_`;
the unhealthy classification of such a cycle is decided by the velocity
comparisons alone. -/
theorem empty_median_velocity_only (m : RovioHealthMonitor)
    (out : StandardOutput)
    (hpos : 0 < m.unhealthy_feature_pixel_cov_area_)
    (h0 : 0 ≤ m.num_subsequent_unhealthy_updates_) :
    medianOf [] = 0 ∧
    ¬ (medianOf [] > m.unhealthy_feature_pixel_cov_area_) ∧
    ((shouldResetEstimator m [] out).2.num_subsequent_unhealthy_updates_ =
        m.num_subsequent_unhealthy_updates_ + 1 ↔
      (out.BvB_norm > m.velocity_to_consider_static_ ∧
        out.BvB_norm > m.unhealthy_velocity_)) := by
  have hm : medianOf [] = 0 := rfl
  refine ⟨rfl, by rw [hm]; exact not_lt.mpr (le_of_lt hpos), ?_⟩
  by_cases h : unhealthyCond m (medianOf []) out.BvB_norm
  · rw [shouldResetEstimator_of_unhealthy m [] out h]
    have hcond : out.BvB_norm > m.velocity_to_consider_static_ ∧
        out.BvB_norm > m.unhealthy_velocity_ := by
      rcases h with ⟨ha, hb | hb⟩
      · exact ⟨ha, hb⟩
      · rw [hm] at hb
        exact absurd hb (not_lt.mpr (le_of_lt hpos))
    exact ⟨fun _ => hcond, fun _ => rfl⟩
  · rw [shouldResetEstimator_of_healthy m [] out h]
    refine ⟨fun heq => ?_, fun hcond => absurd ⟨hcond.1, Or.inl hcond.2⟩ h⟩
    have h1 : (0 : ℤ) = m.num_subsequent_unhealthy_updates_ + 1 := heq
    exact absurd h1 (by omega)

/-- C8 witness: default configuration, empty samples, velocity norm 7. -/
theorem empty_median_velocity_only_witness :
    medianOf [] = 0 ∧
    ¬ (medianOf [] > defaultMonitor.unhealthy_feature_pixel_cov_area_) ∧
    ((shouldResetEstimator defaultMonitor []
        ⟨7, (0, 0, 0), (1, 0, 0, 0)⟩).2.num_subsequent_unhealthy_updates_ =
        defaultMonitor.num_subsequent_unhealthy_updates_ + 1 ↔
      ((7 : ℚ) > defaultMonitor.velocity_to_consider_static_ ∧
        (7 : ℚ) > defaultMonitor.unhealthy_velocity_)) :=
  empty_median_velocity_only defaultMonitor ⟨7, (0, 0, 0), (1, 0, 0, 0)⟩
    (by norm_num [defaultMonitor, RovioHealthMonitor.construct])
    (by norm_num [defaultMonitor, RovioHealthMonitor.construct])

/-- C5: from a zero streak counter, `k` unhealthy cycles, one healthy
cycle, then `k` more unhealthy cycles never return `true` when
`k ≤ max_subsequent_unhealthy_updates_`: the intervening healthy cycle
resets the streak counter to zero. -/
theorem healthy_cycle_resets_streak (m : RovioHealthMonitor) (k : ℕ)
    (a b : List Cycle) (hc : Cycle)
    (h0 : m.num_subsequent_unhealthy_updates_ = 0)
    (hk : (k : ℤ) ≤ m.max_subsequent_unhealthy_updates_)
    (hal : a.length = k) (hbl : b.length = k)
    (hua : ∀ c ∈ a, cycleUnhealthy m c)
    (hub : ∀ c ∈ b, cycleUnhealthy m c)
    (hhc : ¬ cycleUnhealthy m hc) :
    ∀ r ∈ (runCycles m (a ++ hc :: b)).1, r = false := by
  intro r hr
  obtain ⟨-, sa⟩ := runCycles_of_unhealthy a m hua
  rw [runCycles_append, List.mem_append] at hr
  rcases hr with hr | hr
  · refine runCycles_all_false a m hua ?_ r hr
    omega
  · rw [sa] at hr
    have hhc1 : ¬ unhealthyCond
        { m with num_subsequent_unhealthy_updates_ :=
            m.num_subsequent_unhealthy_updates_ + a.length }
        (medianOf hc.1) hc.2.BvB_norm := hhc
    rw [runCycles] at hr
    rw [shouldResetEstimator_of_healthy _ _ _ hhc1] at hr
    simp only [List.mem_cons] at hr
    rcases hr with rfl | hr
    · rfl
    · refine runCycles_all_false b _ ?_ ?_ r hr
      · exact fun c hcb => hub c hcb
      · show (0 : ℤ) + (b.length : ℤ) ≤ m.max_subsequent_unhealthy_updates_
        omega

/-- C5 witness: defaults (`max = 2`), two unhealthy cycles, one healthy
cycle, two more unhealthy cycles: every call returns `false`. -/
theorem healthy_cycle_resets_streak_witness :
    (runCycles defaultMonitor
      ([fastCycle, fastCycle] ++ calmCycle (1/5) ::
        [fastCycle, fastCycle])).1 = List.replicate 5 false :=
  List.eq_replicate_iff.mpr
    ⟨by rw [runCycles_length]; rfl,
  healthy_cycle_resets_streak defaultMonitor 2
    [fastCycle, fastCycle] [fastCycle, fastCycle] (calmCycle (1/5))
    rfl (by norm_num [defaultMonitor, RovioHealthMonitor.construct])
    rfl rfl
    (by
      intro c hcm
      fin_cases hcm <;>
        norm_num [cycleUnhealthy, unhealthyCond, medianOf, fastCycle,
          defaultMonitor, RovioHealthMonitor.construct])
    (by
      intro c hcm
      fin_cases hcm <;>
        norm_num [cycleUnhealthy, unhealthyCond, medianOf, fastCycle,
          defaultMonitor, RovioHealthMonitor.construct])
    (by norm_num [cycleUnhealthy, unhealthyCond, medianOf, calmCycle,
      defaultMonitor, RovioHealthMonitor.construct, List.insertionSort,
      List.orderedInsert])⟩

/-- C6: a call that returns `true` leaves the streak counter at its
post-increment value, strictly above the maximum; every subsequent
unhealthy cycle therefore also returns `true`, and a healthy cycle resets
the counter to zero. -/
theorem reset_latched_until_healthy (m : RovioHealthMonitor)
    (xs : List ℚ) (out : StandardOutput)
    (h : (shouldResetEstimator m xs out).1 = true) :
    (shouldResetEstimator m xs out).2.num_subsequent_unhealthy_updates_ =
      m.num_subsequent_unhealthy_updates_ + 1 ∧
    m.max_subsequent_unhealthy_updates_ <
      (shouldResetEstimator m xs out).2.num_subsequent_unhealthy_updates_ ∧
    (∀ cs : List Cycle, (∀ c ∈ cs, cycleUnhealthy m c) →
      ∀ r ∈ (runCycles (shouldResetEstimator m xs out).2 cs).1,
        r = true) ∧
    (∀ (ys : List ℚ) (out2 : StandardOutput),
      ¬ unhealthyCond m (medianOf ys) out2.BvB_norm →
      (shouldResetEstimator (shouldResetEstimator m xs out).2 ys
          out2).2.num_subsequent_unhealthy_updates_ = 0) := by
  have hu : unhealthyCond m (medianOf xs) out.BvB_norm := by
    by_contra hcon
    rw [shouldResetEstimator_of_healthy m xs out hcon] at h
    exact Bool.false_ne_true h
  have hgt : m.num_subsequent_unhealthy_updates_ + 1 >
      m.max_subsequent_unhealthy_updates_ := by
    by_contra hcon
    rw [shouldResetEstimator_of_unhealthy m xs out hu] at h
    simp only [decide_eq_true_eq] at h
    exact hcon h
  rw [shouldResetEstimator_of_unhealthy m xs out hu]
  refine ⟨rfl, hgt, ?_, ?_⟩
  · intro cs hcs r hr
    refine runCycles_all_true cs _ ?_ ?_ r hr
    · exact fun c hcm => hcs c hcm
    · show m.max_subsequent_unhealthy_updates_ <
        m.num_subsequent_unhealthy_updates_ + 1
      omega
  · intro ys out2 hh2
    have hh3 : ¬ unhealthyCond
        { m with num_subsequent_unhealthy_updates_ :=
            m.num_subsequent_unhealthy_updates_ + 1 }
        (medianOf ys) out2.BvB_norm := hh2
    rw [shouldResetEstimator_of_healthy _ _ _ hh3]

/-- C6 witness: with the counter already at 2 (the default maximum), a
fast cycle returns `true`; afterwards two further fast cycles both return
`true`, and a healthy cycle zeroes the counter. -/
theorem reset_latched_until_healthy_witness :
    (shouldResetEstimator
        { defaultMonitor with num_subsequent_unhealthy_updates_ := 2 }
        fastCycle.1 fastCycle.2).2.num_subsequent_unhealthy_updates_ =
      ({ defaultMonitor with
          num_subsequent_unhealthy_updates_ :=
            2 }).num_subsequent_unhealthy_updates_ + 1 ∧
    ({ defaultMonitor with
        num_subsequent_unhealthy_updates_ :=
          2 }).max_subsequent_unhealthy_updates_ <
      (shouldResetEstimator
        { defaultMonitor with num_subsequent_unhealthy_updates_ := 2 }
        fastCycle.1 fastCycle.2).2.num_subsequent_unhealthy_updates_ ∧
    (∀ cs : List Cycle,
      (∀ c ∈ cs, cycleUnhealthy
        { defaultMonitor with num_subsequent_unhealthy_updates_ := 2 } c) →
      ∀ r ∈ (runCycles (shouldResetEstimator
        { defaultMonitor with num_subsequent_unhealthy_updates_ := 2 }
        fastCycle.1 fastCycle.2).2 cs).1, r = true) ∧
    (∀ (ys : List ℚ) (out2 : StandardOutput),
      ¬ unhealthyCond
        { defaultMonitor with num_subsequent_unhealthy_updates_ := 2 }
        (medianOf ys) out2.BvB_norm →
      (shouldResetEstimator (shouldResetEstimator
          { defaultMonitor with num_subsequent_unhealthy_updates_ := 2 }
          fastCycle.1 fastCycle.2).2 ys
          out2).2.num_subsequent_unhealthy_updates_ = 0) :=
  reset_latched_until_healthy
    { defaultMonitor with num_subsequent_unhealthy_updates_ := 2 }
    fastCycle.1 fastCycle.2
    (by norm_num [shouldResetEstimator, unhealthyCond, medianOf, fastCycle,
      defaultMonitor, RovioHealthMonitor.construct])

/-- C7 counterexample: with the default configuration (healthy area 1,
increment 3/10, retained median initially 0), the healthy cycles with
medians 9/10 then 7/10 are strictly decreasing, below the healthy bound,
with consecutive difference 1/5 below the increment, yet the retained pose
after the run is not the last cycle's snapshot: both updates are rejected
because neither median is within 3/10 of the retained median 0. -/
theorem failsafe_retention_counterexample :
    (∀ c ∈ [calmCycle (9/10), calmCycle (7/10)],
      ¬ cycleUnhealthy defaultMonitor c) ∧
    (∀ c ∈ [calmCycle (9/10), calmCycle (7/10)],
      medianOf c.1 < defaultMonitor.healthy_feature_pixel_cov_area_) ∧
    (([calmCycle (9/10), calmCycle (7/10)].map
        fun c => medianOf c.1).Chain'
      (fun x y => y < x ∧
        x - y < defaultMonitor.healthy_feature_pixel_cov_area_increment_)) ∧
    (runCycles defaultMonitor
        [calmCycle (9/10), calmCycle (7/10)]).2.last_safe_pose_ ≠
      { failsafe_WrWB := (calmCycle (7/10)).2.WrWB
        failsafe_qBW := (calmCycle (7/10)).2.qBW
        feature_pixel_cov_area_median := medianOf (calmCycle (7/10)).1 } := by
  refine ⟨?_, ?_, ?_, ?_⟩
  · intro c hcm
    fin_cases hcm <;>
      norm_num [cycleUnhealthy, unhealthyCond, medianOf, calmCycle,
        defaultMonitor, RovioHealthMonitor.construct, List.insertionSort,
        List.orderedInsert]
  · intro c hcm
    fin_cases hcm <;>
      norm_num [medianOf, calmCycle, defaultMonitor,
        RovioHealthMonitor.construct, List.insertionSort,
        List.orderedInsert]
  · norm_num [medianOf, calmCycle, defaultMonitor,
      RovioHealthMonitor.construct, List.insertionSort, List.orderedInsert,
      List.chain'_cons, List.chain'_singleton]
  · norm_num [runCycles, shouldResetEstimator, unhealthyCond, retainCond,
      medianOf, calmCycle, defaultMonitor, RovioHealthMonitor.construct,
      RovioFailsafePose.init, List.insertionSort, List.orderedInsert,
      abs_lt, abs_sub_lt_iff, RovioFailsafePose.mk.injEq]

/-- C7 (amended): if additionally the first median of the healthy
sequence is within `healthy_feature_pixel_cov_area_increment_` of the
retained median at the start, then after a sequence of healthy cycles with
strictly decreasing medians, all below
`healthy_feature_pixel_cov_area_`, with consecutive differences below the
increment, the retained failsafe pose equals the snapshot of the last
cycle; and a healthy cycle whose median differs from the retained median
by at least the increment leaves the retained pose unchanged. -/
theorem failsafe_retention_amended :
    (∀ (cs : List Cycle) (m : RovioHealthMonitor) (hne : cs ≠ []),
      (∀ c ∈ cs, ¬ cycleUnhealthy m c) →
      (∀ c ∈ cs, medianOf c.1 < m.healthy_feature_pixel_cov_area_) →
      ((cs.map fun c => medianOf c.1).Chain'
        (fun x y => y < x ∧
          x - y < m.healthy_feature_pixel_cov_area_increment_)) →
      |medianOf (cs.head hne).1 -
          m.last_safe_pose_.feature_pixel_cov_area_median| <
        m.healthy_feature_pixel_cov_area_increment_ →
      (runCycles m cs).2.last_safe_pose_ =
        { failsafe_WrWB := (cs.getLast hne).2.WrWB
          failsafe_qBW := (cs.getLast hne).2.qBW
          feature_pixel_cov_area_median := medianOf (cs.getLast hne).1 }) ∧
    (∀ (m : RovioHealthMonitor) (xs : List ℚ) (out : StandardOutput),
      ¬ unhealthyCond m (medianOf xs) out.BvB_norm →
      m.healthy_feature_pixel_cov_area_increment_ ≤
        |medianOf xs - m.last_safe_pose_.feature_pixel_cov_area_median| →
      (shouldResetEstimator m xs out).2.last_safe_pose_ =
        m.last_safe_pose_) := by
  constructor
  · exact fun cs m hne => runCycles_retention cs m hne
  · intro m xs out hh hge
    rw [shouldResetEstimator_of_healthy m xs out hh]
    have hnr : ¬ retainCond m (medianOf xs) :=
      fun hcr => absurd hcr.2 (not_lt.mpr hge)
    simp only [if_neg hnr]

/-- C7 witness: medians 1/5 then 1/10 (decreasing, below 1, difference
1/10 below the increment 3/10, first within 3/10 of the initial retained
median 0) leave the failsafe pose equal to the last snapshot; and from
that state a healthy cycle with median 9/10 (at distance at least 3/10
from the retained 1/10) leaves the pose unchanged. -/
theorem failsafe_retention_amended_witness :
    (runCycles defaultMonitor
        [calmCycle (1/5), calmCycle (1/10)]).2.last_safe_pose_ =
      { failsafe_WrWB := (calmCycle (1/10)).2.WrWB
        failsafe_qBW := (calmCycle (1/10)).2.qBW
        feature_pixel_cov_area_median := medianOf (calmCycle (1/10)).1 } :=
  failsafe_retention_amended.1 [calmCycle (1/5), calmCycle (1/10)]
    defaultMonitor (List.cons_ne_nil _ _)
    (by
      intro c hcm
      fin_cases hcm <;>
        norm_num [cycleUnhealthy, unhealthyCond, medianOf, calmCycle,
          defaultMonitor, RovioHealthMonitor.construct, List.insertionSort,
          List.orderedInsert])
    (by
      intro c hcm
      fin_cases hcm <;>
        norm_num [medianOf, calmCycle, defaultMonitor,
          RovioHealthMonitor.construct, List.insertionSort,
          List.orderedInsert])
    (by norm_num [medianOf, calmCycle, defaultMonitor,
      RovioHealthMonitor.construct, List.insertionSort, List.orderedInsert,
      List.chain'_cons, List.chain'_singleton])
    (by norm_num [medianOf, calmCycle, defaultMonitor,
      RovioHealthMonitor.construct, RovioFailsafePose.init,
      List.insertionSort, List.orderedInsert, abs_lt])

end Rovio
